import Mathlib

/-!
Shallow embedding of the catalog application (catalog/models.py and
catalog/views.py) of the django_local_library repository.

Conventions of the embedding:
* Dates are day numbers (`Nat`); `today` is passed explicitly where the source
  calls `date.today()`.
* Primary keys (including the BookInstance UUID) are modelled as `Nat`: the
  embedding only needs identifiers to be comparable for equality.
* The database is a `Store` of lists of records; the Django ORM calls used by
  the source (filter, count, order_by, get, save, on_delete=SET_NULL) are
  embedded as list operations on the `Store`.
* A Django session is a key-value map from strings to integers.
-/

namespace Catalog

/-- Case-insensitive substring test on character lists: does `needle` occur
inside the haystack? Auxiliary for `icontains`. -/
def icontainsAux (needle : List Char) : List Char → Bool
  | [] => needle.isEmpty
  | c :: rest => needle.isPrefixOf (c :: rest) || icontainsAux needle rest

/-- Embeds the Django `__icontains` lookup used in `views.py`
(`name__icontains` and `title__icontains`): case-insensitive substring
containment. -/
def icontains (hay needle : String) : Bool :=
  icontainsAux needle.toLower.data hay.toLower.data

/-- Embeds the `Genre` model of `catalog/models.py`: a single `name` field. -/
structure Genre where
  id : Nat
  name : String
  deriving DecidableEq

/-- Embeds the `Language` model of `catalog/models.py`: a single `name`
field. -/
structure Language where
  id : Nat
  name : String
  deriving DecidableEq

/-- Embeds the `Author` model of `catalog/models.py`. -/
structure Author where
  id : Nat
  first_name : String
  last_name : String
  date_of_birth : Option Nat
  date_of_death : Option Nat
  deriving DecidableEq

/-- Embeds the `Book` model of `catalog/models.py`. The `author` and
`language` foreign keys are nullable (`null=True`, `on_delete=SET_NULL`);
`genre` is the many-to-many field, held as the list of related Genre ids. -/
structure Book where
  id : Nat
  title : String
  author : Option Nat
  summary : String
  isbn : String
  genre : List Nat
  language : Option Nat
  deriving DecidableEq

/-- Embeds the `LOAN_STATUS` choices of `BookInstance` in
`catalog/models.py`: keys m (Maintenance), o (On loan), a (Available),
r (Reserved). -/
inductive LoanStatus
  | m
  | o
  | a
  | r
  deriving DecidableEq

/-- Embeds the `BookInstance` model of `catalog/models.py`. `id` models the
generated UUID primary key; `book` and `borrower` are nullable foreign keys
(`on_delete=SET_NULL`); `due_back` is the nullable date field. -/
structure BookInstance where
  id : Nat
  book : Option Nat
  imprint : String
  due_back : Option Nat
  borrower : Option Nat
  status : LoanStatus
  deriving DecidableEq

/-- The Entity Store: one list of records per model, embedding the database
tables behind the Django ORM. -/
structure Store where
  genres : List Genre
  languages : List Language
  authors : List Author
  books : List Book
  instances : List BookInstance
  deriving DecidableEq

/-- Embeds `Book.objects.get(pk=...)` / primary-key lookup on the books
table. -/
def Store.getBook (st : Store) (pk : Nat) : Option Book :=
  st.books.find? (fun b => b.id == pk)

/-- Embeds primary-key lookup on the bookinstances table, as done by
`get_object_or_404(BookInstance, pk=pk)` in `renew_book_librarian`. -/
def Store.getInstance (st : Store) (pk : Nat) : Option BookInstance :=
  st.instances.find? (fun i => i.id == pk)

/-- Embeds `BookInstance.is_overdue` (`catalog/models.py` lines 174-178):
`if self.due_back and date.today() > self.due_back: return True; return
False`. A Python `date` object is always truthy, so the test is exactly:
due_back is non-null and strictly before today. -/
def BookInstance.is_overdue (today : Nat) (i : BookInstance) : Bool :=
  match i.due_back with
  | some due => decide (today > due)
  | none => false

/-- Embeds `BookInstance.__str__` (`catalog/models.py` lines 198-200):
format of `self.id` and `self.book.title`. `self.book` resolves the nullable
foreign key; when `book_id` is null it is Python `None`, and the attribute
access `None.title` raises `AttributeError`. The raised exception is modelled
by `none`; a produced string is `some`. -/
def BookInstance.str (st : Store) (i : BookInstance) : Option String :=
  match i.book with
  | none => none
  | some bid =>
    match st.getBook bid with
    | none => none
    | some b => some (toString i.id ++ " (" ++ b.title ++ ")")

/-- Embeds deletion of an Author record together with the declared
`on_delete=models.SET_NULL` behavior of `Book.author`
(`catalog/models.py` line 99): every Book referencing the deleted Author has
its author field set to null; no Book is deleted. -/
def Store.deleteAuthor (st : Store) (pk : Nat) : Store :=
  { st with
    authors := st.authors.filter (fun a => !(a.id == pk)),
    books := st.books.map
      (fun b => if b.author == some pk then { b with author := none } else b) }

/-- Embeds deletion of a Language record together with the declared
`on_delete=models.SET_NULL` behavior of `Book.language`
(`catalog/models.py` line 109). -/
def Store.deleteLanguage (st : Store) (pk : Nat) : Store :=
  { st with
    languages := st.languages.filter (fun l => !(l.id == pk)),
    books := st.books.map
      (fun b => if b.language == some pk then { b with language := none } else b) }

/-- Embeds deletion of a Book record together with the declared
`on_delete=models.SET_NULL` behavior of `BookInstance.book`
(`catalog/models.py` line 169): every BookInstance referencing the deleted
Book has its book field set to null; no BookInstance is deleted. -/
def Store.deleteBook (st : Store) (pk : Nat) : Store :=
  { st with
    books := st.books.filter (fun b => !(b.id == pk)),
    instances := st.instances.map
      (fun i => if i.book == some pk then { i with book := none } else i) }

/-- The permission tuple of `Genre.Meta` (`catalog/models.py` lines 22-26). -/
def Genre.Meta.permissions : List String :=
  ["can_create_genre", "can_update_genre", "can_delete_genre"]

/-- The permission tuple of `Language.Meta` (`catalog/models.py` lines
56-60). -/
def Language.Meta.permissions : List String :=
  ["can_create_language", "can_update_language", "can_delete_language"]

/-- The permission tuple of `Book.Meta` (`catalog/models.py` lines
113-117). -/
def Book.Meta.permissions : List String :=
  ["can_create_book", "can_update_book", "can_delete_book"]

/-- The permission tuple of `BookInstance.Meta` (`catalog/models.py` lines
191-196). -/
def BookInstance.Meta.permissions : List String :=
  ["can_mark_returned", "can_create_bookinstance", "can_update_bookinstance",
   "can_delete_bookinstance"]

/-- The permission tuple of `Author.Meta` (`catalog/models.py` lines
222-226). -/
def Author.Meta.permissions : List String :=
  ["can_create_author", "can_update_author", "can_delete_author"]

/-- All capability names the system defines: the union of the permission
tuples declared in the five model Meta classes of `catalog/models.py`. -/
def definedCapabilities : List String :=
  Genre.Meta.permissions ++ Language.Meta.permissions ++ Book.Meta.permissions
    ++ BookInstance.Meta.permissions ++ Author.Meta.permissions

/-- The capability set as the specification lists it: can_create_, can_update_
and can_delete_ for each of the five entities, plus can_mark_returned. Written
from the words of the spec for comparison with `definedCapabilities`. -/
def specListedCapabilities : List String :=
  (["genre", "language", "author", "book", "bookinstance"].map
    (fun e => ["can_create_" ++ e, "can_update_" ++ e, "can_delete_" ++ e])).flatten
    ++ ["can_mark_returned"]

/-- A Django session, embedded as an association list from string keys to
integer values; later entries are shadowed by earlier ones. -/
abbrev Session := List (String × Nat)

/-- Embeds `request.session.get(key, default)`. -/
def Session.get (s : Session) (k : String) (dflt : Nat) : Nat :=
  match s.find? (fun p => p.1 == k) with
  | some p => p.2
  | none => dflt

/-- Embeds the assignment `request.session[key] = v`: the new binding shadows
any previous one. -/
def Session.put (s : Session) (k : String) (v : Nat) : Session :=
  (k, v) :: s

/-- A fresh session, holding no keys yet. -/
def Session.empty : Session := []

/-- The context dictionary built by the `index` view of `catalog/views.py`
(lines 36-44): the six aggregate counters plus the session visit count. -/
structure IndexContext where
  num_books : Nat
  num_instances : Nat
  num_instances_available : Nat
  num_authors : Nat
  num_fantasy_genres : Nat
  num_thrones_books : Nat
  num_visits : Nat
  deriving DecidableEq

/-- Embeds the `index` view of `catalog/views.py` (lines 10-47): computes the
aggregate counts over the store, reads the per-session visit counter with
default 0, writes back the counter plus one, and returns the context built
from the pre-increment value together with the updated session. -/
def index (st : Store) (sess : Session) : IndexContext × Session :=
  let num_books := st.books.length
  let num_instances := st.instances.length
  let num_instances_available :=
    (st.instances.filter (fun i => i.status == LoanStatus.a)).length
  let num_authors := st.authors.length
  let num_visits := sess.get ("num_visits") 0
  let sess2 := sess.put ("num_visits") (num_visits + 1)
  let num_fantasy_genres :=
    (st.genres.filter (fun g => icontains g.name ("fantasy"))).length
  let num_thrones_books :=
    (st.books.filter (fun b => icontains b.title ("thrones"))).length
  (⟨num_books, num_instances, num_instances_available, num_authors,
    num_fantasy_genres, num_thrones_books, num_visits⟩, sess2)

/-- The outputs of `n` consecutive calls of the `index` view against a fixed
store, each call passing on the session the previous one returned: the list of
the `num_visits` values reported to the caller. -/
def indexVisits (st : Store) : Session → Nat → List Nat
  | _, 0 => []
  | sess, n + 1 =>
    let r := index st sess
    r.1.num_visits :: indexVisits st r.2 n

/-- Ascending comparison on the nullable `due_back` date with null values
first. This is the ordering SQL `ORDER BY due_back ASC` produces on the
backends whose NULLs compare below every value (the default SQLite backend of
a Django project), hence the semantics of the plain `order_by` on `due_back`
in `LoanedBooksByUserListView.get_queryset`. -/
def dueLeNullsFirst : Option Nat → Option Nat → Bool
  | none, _ => true
  | some _, none => false
  | some a, some b => a ≤ b

/-- Ascending comparison on the nullable `due_back` date with null values
last: the ordering requested explicitly by `F(due_back).asc(nulls_last=True)`
in `BookinstancesAllListView.get_queryset` and in `BookInstance.Meta`. -/
def dueLeNullsLast : Option Nat → Option Nat → Bool
  | none, none => true
  | none, some _ => false
  | some _, none => true
  | some a, some b => a ≤ b

instance : DecidableRel (fun a b : BookInstance =>
    dueLeNullsFirst a.due_back b.due_back = true) :=
  fun _ _ => inferInstanceAs (Decidable (_ = true))

instance : DecidableRel (fun a b : BookInstance =>
    dueLeNullsLast a.due_back b.due_back = true) :=
  fun _ _ => inferInstanceAs (Decidable (_ = true))

/-- Embeds `LoanedBooksByUserListView.get_queryset` (`catalog/views.py` lines
101-102): filter on borrower equal to the current user, then filter on status
exactly o, then plain ascending order_by on due_back. The plain order_by
leaves NULL placement to the backend; NULLs sort first there (see
`dueLeNullsFirst`). -/
def LoanedBooksByUserListView.get_queryset (st : Store) (user : Nat) :
    List BookInstance :=
  List.insertionSort
    (fun a b => dueLeNullsFirst a.due_back b.due_back = true)
    ((st.instances.filter (fun i => i.borrower == some user)).filter
      (fun i => i.status == LoanStatus.o))

/-- Embeds `BookinstancesAllListView.get_queryset` (`catalog/views.py` lines
117-118): all bookinstances ordered by due_back ascending with nulls last. -/
def BookinstancesAllListView.get_queryset (st : Store) : List BookInstance :=
  List.insertionSort
    (fun a b => dueLeNullsLast a.due_back b.due_back = true)
    st.instances

/-- Result of a permission-gated view: either the capability check failed and
the request was refused, or the view body ran and produced a value. -/
inductive Gated (α : Type)
  | forbidden
  | ok (a : α)
  deriving DecidableEq

/-- Embeds the gate shared by `PermissionRequiredMixin` (used by every
create/update/delete view and by `BookinstancesAllListView` in
`catalog/views.py`) and the `@permission_required` decorator: the capability
check runs before the view body; when the caller lacks the required
capability the request is refused and the body — and with it every read or
write of the store — never runs. -/
def requirePerm {α : Type} (required : String) (perms : List String)
    (body : Store → α × Store) (st : Store) : Gated α × Store :=
  if perms.contains required then
    let r := body st
    (Gated.ok r.1, r.2)
  else (Gated.forbidden, st)

/-- Embeds the `BookinstancesAllListView` dispatch (`catalog/views.py` lines
110-118): `permission_required = catalog.can_mark_returned` gates the
queryset. -/
def BookinstancesAllListView.view (perms : List String) (st : Store) :
    Gated (List BookInstance) × Store :=
  requirePerm ("catalog.can_mark_returned") perms
    (fun st => (BookinstancesAllListView.get_queryset st, st)) st

/-- Embeds the `AuthorCreate` view (`catalog/views.py` lines 166-171): the
can_create_author capability gates appending a new Author record. -/
def AuthorCreate.view (perms : List String) (a : Author) (st : Store) :
    Gated Author × Store :=
  requirePerm ("catalog.can_create_author") perms
    (fun st => (a, { st with authors := st.authors ++ [a] })) st

/-- Embeds the `AuthorDelete` view (`catalog/views.py` lines 181-184): the
can_delete_author capability gates the deletion. -/
def AuthorDelete.view (perms : List String) (pk : Nat) (st : Store) :
    Gated Unit × Store :=
  requirePerm ("catalog.can_delete_author") perms
    (fun st => ((), st.deleteAuthor pk)) st

/-- Modelled from the spec: `RenewBookForm.clean_renewal_date` of
`catalog/forms.py`, a file the sources do not include (only its caller
`renew_book_librarian` is present). Per the spec, the proposed renewal date
is rejected when it is in the past or more than 4 weeks (28 days) after
today; otherwise it is accepted. -/
def clean_renewal_date (today proposed : Nat) : Bool :=
  !(decide (proposed < today)) && !(decide (proposed > today + 28))

/-- Outcome of a renewal request handled by `renew_book_librarian`. -/
inductive RenewOutcome
  | forbidden
  | notFound
  | formError
  | redirectSuccess
  deriving DecidableEq

/-- Embeds the POST path of `renew_book_librarian` (`catalog/views.py` lines
129-154). The `@permission_required(catalog.can_mark_returned)` decorator
refuses the request before the body runs; `get_object_or_404` raises NotFound
for an absent id; an invalid form re-renders with a validation error and
saves nothing; a valid form writes the cleaned renewal date into due_back of
the fetched instance and saves it. -/
def renew_book_librarian (perms : List String) (today : Nat) (st : Store)
    (pk : Nat) (proposed : Nat) : RenewOutcome × Store :=
  if !(perms.contains ("catalog.can_mark_returned")) then
    (RenewOutcome.forbidden, st)
  else
    match st.getInstance pk with
    | none => (RenewOutcome.notFound, st)
    | some _ =>
      if clean_renewal_date today proposed then
        (RenewOutcome.redirectSuccess,
          { st with
            instances := st.instances.map
              (fun i => if i.id == pk then { i with due_back := some proposed }
                        else i) })
      else (RenewOutcome.formError, st)

/-! Concrete records used to evaluate the definitions on closed inputs. -/

/-- A sample Genre record. -/
def exGenre : Genre := ⟨2, "Epic Fantasy"⟩

/-- A sample Language record. -/
def exLanguage : Language := ⟨4, "English"⟩

/-- A sample Author record. -/
def exAuthor : Author := ⟨3, "Frank", "Herbert", some 1, none⟩

/-- A sample Book record referencing `exAuthor` and `exLanguage`. -/
def exBook : Book := ⟨1, "Dune", some 3, "Desert planet", "9780441013593", [2], some 4⟩

/-- A sample on-loan BookInstance referencing `exBook`, borrowed by user 7,
due on day 90. -/
def exInst : BookInstance := ⟨1, some 1, "Ace 1965", some 90, some 7, LoanStatus.o⟩

/-- A sample store holding one record of each entity. -/
def exStore : Store := ⟨[exGenre], [exLanguage], [exAuthor], [exBook], [exInst]⟩

/-- A BookInstance on loan to user 7 with no due date. -/
def exInstNullDue : BookInstance := ⟨11, some 1, "Ace 1965", none, some 7, LoanStatus.o⟩

/-- A BookInstance on loan to user 7 due on day 5. -/
def exInstDated : BookInstance := ⟨12, some 1, "Ace 1965", some 5, some 7, LoanStatus.o⟩

/-- A store whose bookinstance table holds `exInstNullDue` before
`exInstDated`. -/
def exStoreLoans : Store := ⟨[], [], [], [], [exInstNullDue, exInstDated]⟩

/-- A Book with no relations, for the display-identifier evaluation. -/
def exBookPlain : Book := ⟨1, "Dune", none, "", "", [], none⟩

/-- A BookInstance (uuid modelled as 42) referencing `exBookPlain`. -/
def exInstOfPlain : BookInstance := ⟨42, some 1, "Ace 1965", none, none, LoanStatus.m⟩

/-- A store holding `exBookPlain` and `exInstOfPlain`. -/
def exStoreDisplay : Store := ⟨[], [], [], [exBookPlain], [exInstOfPlain]⟩

instance : IsTotal BookInstance
    (fun a b => dueLeNullsFirst a.due_back b.due_back = true) :=
  ⟨fun a b => by
    cases a.due_back <;> cases b.due_back <;>
      simp [dueLeNullsFirst] <;> exact Nat.le_total _ _⟩

instance : IsTrans BookInstance
    (fun a b => dueLeNullsFirst a.due_back b.due_back = true) :=
  ⟨fun a b c => by
    cases ha : a.due_back <;> cases hb : b.due_back <;> cases hc : c.due_back <;>
      simp [dueLeNullsFirst, ha, hb, hc] <;> omega⟩

instance : IsTotal BookInstance
    (fun a b => dueLeNullsLast a.due_back b.due_back = true) :=
  ⟨fun a b => by
    cases a.due_back <;> cases b.due_back <;>
      simp [dueLeNullsLast] <;> exact Nat.le_total _ _⟩

instance : IsTrans BookInstance
    (fun a b => dueLeNullsLast a.due_back b.due_back = true) :=
  ⟨fun a b c => by
    cases ha : a.due_back <;> cases hb : b.due_back <;> cases hc : c.due_back <;>
      simp [dueLeNullsLast, ha, hb, hc] <;> omega⟩

/-! Helper lemmas. -/

/-- If a rewrite of the records preserves the truth of the search predicate,
searching the rewritten table is rewriting the search result. -/
theorem find?_map_eq {α : Type} (p : α → Bool) (f : α → α)
    (hf : ∀ x, p (f x) = p x) (l : List α) :
    (l.map f).find? p = (l.find? p).map f := by
  induction l with
  | nil => rfl
  | cons a l ih =>
    by_cases h : p a = true
    · have hfa : p (f a) = true := (hf a).trans h
      simp [List.find?_cons_of_pos _ h, List.find?_cons_of_pos _ hfa]
    · have hfa : ¬ p (f a) = true := by rw [hf]; exact h
      simp [List.find?_cons_of_neg _ h, List.find?_cons_of_neg _ hfa, ih]

/-- Searching the instance table by id after the renewal write of due_back. -/
theorem find?_renewWrite (l : List BookInstance) (pk proposed q : Nat) :
    (l.map (fun i => if i.id == pk then { i with due_back := some proposed }
        else i)).find? (fun i => i.id == q)
      = (l.find? (fun i => i.id == q)).map
          (fun i => if i.id == pk then { i with due_back := some proposed }
            else i) := by
  apply find?_map_eq
  intro x
  by_cases h : (x.id == pk) = true <;> simp [h]

/-- Primary-key lookup on a store literal reads its instance table. -/
theorem getInstance_mk (gs : List Genre) (ls : List Language)
    (au : List Author) (bs : List Book) (ins : List BookInstance) (pk : Nat) :
    (Store.mk gs ls au bs ins).getInstance pk
      = ins.find? (fun i => i.id == pk) := rfl

/-- Primary-key lookup on a store literal reads its book table. -/
theorem getBook_mk (gs : List Genre) (ls : List Language) (au : List Author)
    (bs : List Book) (ins : List BookInstance) (pk : Nat) :
    (Store.mk gs ls au bs ins).getBook pk
      = bs.find? (fun b => b.id == pk) := rfl

/-- The store a successful renewal leaves behind: exactly the due_back write
on the instances matching the primary key. -/
theorem renew_success_store (perms : List String) (today : Nat) (st : Store)
    (pk proposed : Nat)
    (hsucc : (renew_book_librarian perms today st pk proposed).1
      = RenewOutcome.redirectSuccess) :
    (renew_book_librarian perms today st pk proposed).2
      = { st with
          instances := st.instances.map
            (fun i => if i.id == pk then { i with due_back := some proposed }
                      else i) } := by
  unfold renew_book_librarian at hsucc ⊢
  by_cases hc : perms.contains ("catalog.can_mark_returned") = true
  · simp only [hc, Bool.not_true, Bool.false_eq_true, if_false] at hsucc ⊢
    cases hi : st.getInstance pk with
    | none => simp [hi] at hsucc
    | some i =>
      simp only [hi] at hsucc ⊢
      by_cases hv : clean_renewal_date today proposed = true
      · simp [hv]
      · simp [hv] at hsucc
  · have hnot : ("catalog.can_mark_returned") ∉ perms := by simpa using hc
    simp [hnot] at hsucc

/-- A record found by a search for a primary key carries that key. -/
theorem find?_id_eq (l : List BookInstance) (pk : Nat) (i : BookInstance)
    (h : l.find? (fun j => j.id == pk) = some i) : (i.id == pk) = true := by
  have hp := List.find?_some h
  exact hp

/-- The visit counts reported by consecutive index views count up from the
value stored in the session. -/
theorem indexVisits_eq_range (st : Store) :
    ∀ (n : Nat) (sess : Session),
      indexVisits st sess n = List.range' (sess.get ("num_visits") 0) n := by
  intro n
  induction n with
  | zero => intro sess; rfl
  | succ n ih =>
    intro sess
    rw [List.range'_succ]
    show (index st sess).1.num_visits :: indexVisits st (index st sess).2 n = _
    rw [ih]
    have h1 : (index st sess).1.num_visits = sess.get ("num_visits") 0 := rfl
    have h2 : ((index st sess).2).get ("num_visits") 0
        = sess.get ("num_visits") 0 + 1 := rfl
    rw [h1, h2]

/-! Claims. -/

/-- Claim C1: a renewal request on an existing BookInstance by an authorized
caller is rejected as a validation error, with the store untouched, when the
proposed date is before today or more than 4 weeks (28 days) after today;
within bounds it succeeds and the proposed date is written into due_back of
the instance and persisted. -/
theorem renew_date_validation (perms : List String) (today : Nat) (st : Store)
    (pk proposed : Nat) (i : BookInstance)
    (hperm : perms.contains ("catalog.can_mark_returned") = true)
    (hi : st.getInstance pk = some i) :
    ((proposed < today ∨ today + 28 < proposed) →
      renew_book_librarian perms today st pk proposed
        = (RenewOutcome.formError, st))
    ∧ (today ≤ proposed → proposed ≤ today + 28 →
      (renew_book_librarian perms today st pk proposed).1
          = RenewOutcome.redirectSuccess
      ∧ (renew_book_librarian perms today st pk proposed).2.getInstance pk
          = some { i with due_back := some proposed }) := by
  have hmem : ("catalog.can_mark_returned") ∈ perms := by
    simpa using hperm
  constructor
  · intro hout
    have hcl : clean_renewal_date today proposed = false := by
      simp [clean_renewal_date]
      omega
    simp [renew_book_librarian, hmem, hi, hcl]
  · intro hlo hhi
    have hcl : clean_renewal_date today proposed = true := by
      simp [clean_renewal_date]
      omega
    have hfst : (renew_book_librarian perms today st pk proposed).1
        = RenewOutcome.redirectSuccess := by
      simp [renew_book_librarian, hmem, hi, hcl]
    refine ⟨hfst, ?_⟩
    rw [renew_success_store perms today st pk proposed hfst, getInstance_mk,
      find?_renewWrite]
    have hfind : st.instances.find? (fun j => j.id == pk) = some i := hi
    have hid : i.id = pk := by
      simpa using find?_id_eq st.instances pk i hfind
    rw [hfind]
    simp [hid]

/-- Witness for C1: the sample store, instance 1, today day 100, proposed
day 105. -/
theorem renew_date_validation_witness :
    (["catalog.can_mark_returned"] : List String).contains
        ("catalog.can_mark_returned") = true
    ∧ exStore.getInstance 1 = some exInst
    ∧ (((105 : Nat) < 100 ∨ (100 : Nat) + 28 < 105) →
        renew_book_librarian ["catalog.can_mark_returned"] 100 exStore 1 105
          = (RenewOutcome.formError, exStore))
    ∧ ((100 : Nat) ≤ 105 → (105 : Nat) ≤ 100 + 28 →
        (renew_book_librarian ["catalog.can_mark_returned"] 100 exStore 1
            105).1 = RenewOutcome.redirectSuccess
        ∧ (renew_book_librarian ["catalog.can_mark_returned"] 100 exStore 1
            105).2.getInstance 1
          = some { exInst with due_back := some 105 }) :=
  ⟨by decide, by decide,
    (renew_date_validation ["catalog.can_mark_returned"] 100 exStore 1 105
      exInst (by decide) (by decide)).1,
    (renew_date_validation ["catalog.can_mark_returned"] 100 exStore 1 105
      exInst (by decide) (by decide)).2⟩

/-- Claim C2: a successful renewal is a single-field update: the renewed
instance keeps its id, book, imprint, borrower and status, only due_back is
written, and every other instance of the store is untouched. -/
theorem renew_frame_preservation (perms : List String) (today : Nat)
    (st : Store) (pk proposed : Nat) (i : BookInstance)
    (hi : st.getInstance pk = some i)
    (hsucc : (renew_book_librarian perms today st pk proposed).1
      = RenewOutcome.redirectSuccess) :
    (∃ i2, (renew_book_librarian perms today st pk proposed).2.getInstance pk
        = some i2
      ∧ i2.id = i.id ∧ i2.book = i.book ∧ i2.imprint = i.imprint
      ∧ i2.borrower = i.borrower ∧ i2.status = i.status
      ∧ i2.due_back = some proposed)
    ∧ (∀ q, q ≠ pk →
        (renew_book_librarian perms today st pk proposed).2.getInstance q
          = st.getInstance q) := by
  rw [renew_success_store perms today st pk proposed hsucc]
  constructor
  · refine ⟨{ i with due_back := some proposed }, ?_, rfl, rfl, rfl, rfl,
      rfl, rfl⟩
    rw [getInstance_mk, find?_renewWrite]
    have hfind : st.instances.find? (fun j => j.id == pk) = some i := hi
    have hid : i.id = pk := by
      simpa using find?_id_eq st.instances pk i hfind
    rw [hfind]
    simp [hid]
  · intro q hq
    rw [getInstance_mk, find?_renewWrite]
    cases hfq : st.instances.find? (fun j => j.id == q) with
    | none => simp [Store.getInstance, hfq]
    | some j =>
      have hjq : (j.id == q) = true := find?_id_eq st.instances q j hfq
      have hjid : j.id = q := by simpa using hjq
      have hjpk : ¬ (j.id = pk) := by
        rw [hjid]
        exact hq
      simp [Store.getInstance, hfq, hjpk]

/-- Witness for C2: a successful renewal on the sample store. -/
theorem renew_frame_preservation_witness :
    exStore.getInstance 1 = some exInst
    ∧ (renew_book_librarian ["catalog.can_mark_returned"] 100 exStore 1
        105).1 = RenewOutcome.redirectSuccess
    ∧ ((∃ i2, (renew_book_librarian ["catalog.can_mark_returned"] 100 exStore
          1 105).2.getInstance 1 = some i2
        ∧ i2.id = exInst.id ∧ i2.book = exInst.book
        ∧ i2.imprint = exInst.imprint ∧ i2.borrower = exInst.borrower
        ∧ i2.status = exInst.status ∧ i2.due_back = some 105)
      ∧ (∀ q, q ≠ 1 →
          (renew_book_librarian ["catalog.can_mark_returned"] 100 exStore 1
            105).2.getInstance q = exStore.getInstance q)) :=
  ⟨by decide, by decide,
    renew_frame_preservation ["catalog.can_mark_returned"] 100 exStore 1 105
      exInst (by decide) (by decide)⟩

/-- Claim C3: deleting an Author nulls the author field of every Book that
referenced it without deleting the Book, and deleting a Language nulls the
language field of every Book that referenced it without deleting the Book. -/
theorem delete_detaches_book (st : Store) (bid aid lid : Nat) (b : Book)
    (hb : st.getBook bid = some b) :
    ((st.deleteAuthor aid).books.length = st.books.length
      ∧ (b.author = some aid →
          (st.deleteAuthor aid).getBook bid = some { b with author := none }))
    ∧ ((st.deleteLanguage lid).books.length = st.books.length
      ∧ (b.language = some lid →
          (st.deleteLanguage lid).getBook bid
            = some { b with language := none })) := by
  constructor
  · refine ⟨by simp [Store.deleteAuthor], ?_⟩
    intro ha
    unfold Store.deleteAuthor
    rw [getBook_mk]
    rw [find?_map_eq (fun bk : Book => bk.id == bid)
      (fun bk : Book => if bk.author == some aid then { bk with author := none }
        else bk)
      (fun x => by by_cases h : (x.author == some aid) = true <;> simp [h])]
    rw [show st.books.find? (fun bk => bk.id == bid) = some b from hb]
    simp [ha]
  · refine ⟨by simp [Store.deleteLanguage], ?_⟩
    intro hl
    unfold Store.deleteLanguage
    rw [getBook_mk]
    rw [find?_map_eq (fun bk : Book => bk.id == bid)
      (fun bk : Book => if bk.language == some lid then { bk with language := none }
        else bk)
      (fun x => by by_cases h : (x.language == some lid) = true <;> simp [h])]
    rw [show st.books.find? (fun bk => bk.id == bid) = some b from hb]
    simp [hl]

/-- Witness for C3: the sample store, whose Book 1 references Author 3 and
Language 4. -/
theorem delete_detaches_book_witness :
    exStore.getBook 1 = some exBook
    ∧ (((exStore.deleteAuthor 3).books.length = exStore.books.length
        ∧ (exBook.author = some 3 →
            (exStore.deleteAuthor 3).getBook 1
              = some { exBook with author := none }))
      ∧ ((exStore.deleteLanguage 4).books.length = exStore.books.length
        ∧ (exBook.language = some 4 →
            (exStore.deleteLanguage 4).getBook 1
              = some { exBook with language := none }))) :=
  ⟨by decide, delete_detaches_book exStore 1 3 4 exBook (by decide)⟩

/-- Claim C4: is_overdue holds exactly when due_back is non-null and strictly
earlier than the current date. -/
theorem is_overdue_iff (today : Nat) (i : BookInstance) :
    BookInstance.is_overdue today i = true
      ↔ ∃ d, i.due_back = some d ∧ d < today := by
  cases h : i.due_back <;> simp [BookInstance.is_overdue, h]

/-- Claim C5 counterexample: in a store where user 7 has two on-loan
instances, one with no due date listed before one due on day 5, the my-loaned
listing returns the null-due record first — the plain ascending order_by on
due_back does not put null due dates after the dated ones. -/
theorem loaned_books_nulls_last_counterexample :
    LoanedBooksByUserListView.get_queryset exStoreLoans 7
        = [exInstNullDue, exInstDated]
    ∧ exInstNullDue.due_back = none
    ∧ exInstDated.due_back = some 5
    ∧ exInstNullDue.borrower = some 7 ∧ exInstNullDue.status = LoanStatus.o
    ∧ exInstDated.borrower = some 7 ∧ exInstDated.status = LoanStatus.o
    ∧ ¬ List.Sorted (fun a b => dueLeNullsLast a.due_back b.due_back = true)
        (LoanedBooksByUserListView.get_queryset exStoreLoans 7) := by
  refine ⟨by decide, rfl, rfl, rfl, rfl, rfl, rfl, by decide⟩

/-- Claim C5 (amended): the my-loaned listing returns exactly the
BookInstance records with borrower equal to the caller and status OnLoan,
sorted in non-decreasing due_back order with null due dates placed before
all non-null ones (the backend-default null placement of the plain
ascending order_by the view uses). -/
theorem loaned_books_filter_sorted (st : Store) (user : Nat) :
    List.Perm (LoanedBooksByUserListView.get_queryset st user)
      ((st.instances.filter (fun i => i.borrower == some user)).filter
        (fun i => i.status == LoanStatus.o))
    ∧ List.Sorted (fun a b => dueLeNullsFirst a.due_back b.due_back = true)
        (LoanedBooksByUserListView.get_queryset st user) :=
  ⟨List.perm_insertionSort _ _, List.sorted_insertionSort _ _⟩

/-- Claim C6: the home-page summary counters equal the counts computed over
the store at call time: total books, total instances, instances with status
Available, total authors, genres whose name contains fantasy
case-insensitively, and books whose title contains thrones
case-insensitively. -/
theorem index_counts_match_store (st : Store) (sess : Session) :
    (index st sess).1.num_books = st.books.length
    ∧ (index st sess).1.num_instances = st.instances.length
    ∧ (index st sess).1.num_instances_available
        = st.instances.countP (fun i => i.status == LoanStatus.a)
    ∧ (index st sess).1.num_authors = st.authors.length
    ∧ (index st sess).1.num_fantasy_genres
        = st.genres.countP (fun g => icontains g.name ("fantasy"))
    ∧ (index st sess).1.num_thrones_books
        = st.books.countP (fun b => icontains b.title ("thrones")) := by
  refine ⟨rfl, rfl, ?_, rfl, ?_, ?_⟩ <;>
    simp [index, List.countP_eq_length_filter]

/-- Claim C7: one home-page view returns the visit counter held in the
session before the view, 0 when absent, and stores back that value plus one;
n consecutive views starting from a fresh session hence return
0, 1, ..., n-1. -/
theorem index_visit_counter (st : Store) (sess : Session) (n : Nat) :
    (index st sess).1.num_visits = sess.get ("num_visits") 0
    ∧ ((index st sess).2).get ("num_visits") 0
        = sess.get ("num_visits") 0 + 1
    ∧ indexVisits st Session.empty n = List.range n := by
  refine ⟨rfl, rfl, ?_⟩
  have h := indexVisits_eq_range st n Session.empty
  rw [List.range_eq_range']
  exact h

/-- Claim C8: an operation gated on a capability the caller lacks is refused
with the Forbidden signal and the store is returned untouched — no state is
read or mutated, whatever the view body would have done; in particular a
renewal by a caller lacking can_mark_returned is refused with due_back
unchanged for every instance. -/
theorem permission_gate_refuses {α : Type} (required : String)
    (perms : List String) (st : Store) (body : Store → α × Store)
    (today pk proposed : Nat) :
    (perms.contains required = false →
      requirePerm required perms body st = (Gated.forbidden, st))
    ∧ (perms.contains ("catalog.can_mark_returned") = false →
      renew_book_librarian perms today st pk proposed
        = (RenewOutcome.forbidden, st)) := by
  constructor
  · intro h1
    have hm1 : required ∉ perms := by simpa using h1
    simp [requirePerm, hm1]
  · intro h2
    have hm2 : ("catalog.can_mark_returned") ∉ perms := by simpa using h2
    simp [renew_book_librarian, hm2]

/-- Witness for C8: a caller holding only can_mark_returned is refused on a
gated body requiring can_create_author, and a caller holding only
can_update_book is refused on a renewal against the sample store. -/
theorem permission_gate_refuses_witness :
    ((["catalog.can_mark_returned"] : List String).contains
          ("catalog.can_create_author") = false
      ∧ requirePerm ("catalog.can_create_author")
          ["catalog.can_mark_returned"] (fun st => ((0 : Nat), st)) exStore
          = (Gated.forbidden, exStore))
    ∧ ((["catalog.can_update_book"] : List String).contains
          ("catalog.can_mark_returned") = false
      ∧ renew_book_librarian ["catalog.can_update_book"] 100 exStore 1 105
          = (RenewOutcome.forbidden, exStore)) :=
  ⟨⟨by decide,
      (permission_gate_refuses ("catalog.can_create_author")
        ["catalog.can_mark_returned"] exStore (fun st => ((0 : Nat), st))
        100 1 105).1 (by decide)⟩,
    ⟨by decide,
      (permission_gate_refuses ("catalog.can_create_author")
        ["catalog.can_update_book"] exStore (fun st => ((0 : Nat), st))
        100 1 105).2 (by decide)⟩⟩

/-- Claim C9 counterexample: the capability set the models define is the
listed one, but it has sixteen members, not eleven. -/
theorem capability_count_counterexample :
    definedCapabilities.Nodup ∧ definedCapabilities.length = 16
    ∧ definedCapabilities.length ≠ 11 := by
  refine ⟨by decide, rfl, by decide⟩

/-- Claim C9 (amended): the set of capability names defined by the system is
exactly the set listed in the Access Policy — can_create_, can_update_ and
can_delete_ for each of Genre, Language, Author, Book, BookInstance, plus
can_mark_returned — and this set has exactly sixteen members. -/
theorem capabilities_exactly_sixteen :
    List.Perm definedCapabilities specListedCapabilities
    ∧ definedCapabilities.Nodup
    ∧ definedCapabilities.length = 16 := by
  refine ⟨by decide, by decide, rfl⟩

/-- Claim C10 (code bug): while the instance references an existing Book its
display identifier is produced; after the referenced Book is deleted — the
state the set-null-on-delete invariant produces — the instance has a null
book field and producing the display identifier fails, because
BookInstance.__str__ reads self.book.title unconditionally (the embedded
none models the AttributeError raised on a null book). -/
theorem bookinstance_display_fails_on_null_book :
    BookInstance.str exStoreDisplay exInstOfPlain = some ("42 (Dune)")
    ∧ (exStoreDisplay.deleteBook 1).getInstance 42
        = some { exInstOfPlain with book := none }
    ∧ BookInstance.str (exStoreDisplay.deleteBook 1)
        { exInstOfPlain with book := none } = none := by
  refine ⟨rfl, by decide, rfl⟩

end Catalog
